import Mathlib

/-!
Shallow embedding of zetaab/kops-autoscaler-openstack.

The repository contains three revisions of the same controller:
* `src/pkg/cmd/start.go` — the current layout: package `cmd` (`Execute`,
  `validate`) plus package `autoscaler` (`Options`, `Run`,
  `openstackASG.updateApplyCmd` / `dryRun` / `update`);
* `src/unnamed/part_000` — an earlier `package main` revision
  (`OpenstackASG.loopUntil` / `updateApplyCmd` / `dryRun` / `update`,
  helper `getTaskName`);
* `src/autoscaler.go` — the earliest `package main` revision whose
  `dryRun` scans the full task map instead of the plan's changes.

External effects (the kops `ApplyClusterCmd.Run` call, the clientset
calls, `os.Setenv`) are modelled by passing their outcomes in explicitly;
machinery that only forwards those outcomes is mirrored structurally.
-/

/-- One pending change of a dry-run plan: a kops task.  `taskType` is the
Go `%T` rendering of the task's type (e.g. `"*openstacktasks.Instance"`). -/
structure Change where
  taskType : String
  deriving DecidableEq, Repr

/-- The `fi.DryRunTarget` as the classifiers see it: `changes` is the list
returned by `target.Changes()`. -/
structure DryRunTarget where
  changes : List Change
  deriving DecidableEq, Repr

/-- Go `target.HasChanges()`: true when the dry run recorded at least one
pending creation or update. -/
def DryRunTarget.hasChanges (t : DryRunTarget) : Bool :=
  !t.changes.isEmpty

/-- Characters after the last `'.'` of a list, the whole list when no dot
occurs (Go `s[strings.LastIndexByte(s, '.')+1:]`). -/
def afterLastDot : List Char → List Char
  | [] => []
  | c :: rest =>
      if rest.contains '.' then afterLastDot rest
      else if c = '.' then rest
      else c :: rest

/-- Helper `getTaskName` of `src/unnamed/part_000`: renders a task's type
name and strips everything up to the last dot, so
`"*openstacktasks.Instance"` becomes `"Instance"`. -/
def getTaskName (taskType : String) : String :=
  String.mk (afterLastDot taskType.data)

example : getTaskName "*openstacktasks.Instance" = "Instance" := by decide
example : getTaskName "*openstacktasks.SecurityGroup" = "SecurityGroup" := by decide
example : getTaskName "nodot" = "nodot" := by decide

/-- Go `strings.HasPrefix(s, p)`: `p` occurs at the start of `s`. -/
def strStartsWith (s p : String) : Bool :=
  p.data.isPrefixOf s.data

example : strStartsWith "Instance/nodes-1" "Instance/" = true := by decide
example : strStartsWith "SecurityGroup/sg" "Instance/" = false := by decide

namespace openstackASG

/-- Method `dryRun` of `src/pkg/cmd/start.go` (package `autoscaler`,
lines 200–218).  After a successful `ApplyCmd.Run`, the body that would
scan `target.Changes()` for an `"Instance"` entry is commented out in the
source (`// This does not work yet, waiting for PR to be approved`), so
the `if target.HasChanges()` branch is empty and the function always
returns `false` on success. -/
def dryRun (runResult : Except String Unit) (target : DryRunTarget) :
    Except String Bool :=
  match runResult with
  | .error e => .error e
  | .ok _ =>
      if target.hasChanges then
        .ok false
      else
        .ok false

/-- Method `update` of `src/pkg/cmd/start.go`: switches the apply command
to the direct target and forwards the outcome of the real
`ApplyCmd.Run`. -/
def update (applyRunResult : Except String Unit) : Except String Unit :=
  match applyRunResult with
  | .error e => .error e
  | .ok _ => .ok ()

/-- Method `updateApplyCmd` of `src/pkg/cmd/start.go`: `GetCluster`
errors are wrapped as `"error initializing cluster …"`, the instance-group
`List` error is returned as is, and on success the `ApplyClusterCmd` is
rebuilt. -/
def updateApplyCmd (getClusterResult listResult : Except String Unit) :
    Except String Unit :=
  match getClusterResult with
  | .error e => .error ("error initializing cluster " ++ e)
  | .ok _ =>
      match listResult with
      | .error e => .error e
      | .ok _ => .ok ()

end openstackASG

namespace OpenstackASG

/-- Method `dryRun` of `src/unnamed/part_000` (lines 126–144): after a
successful `ApplyCmd.Run`, when the target has changes it scans
`target.Changes()` and returns `true` at the first task whose
`getTaskName` starts with `"Instance"`; otherwise it returns
`needsCreate = false`. -/
def dryRun (runResult : Except String Unit) (target : DryRunTarget) :
    Except String Bool :=
  match runResult with
  | .error e => .error e
  | .ok _ =>
      if target.hasChanges then
        if target.changes.any
            (fun r => strStartsWith (getTaskName r.taskType) "Instance") then
          .ok true
        else
          .ok false
      else
        .ok false

/-- Method `update` of `src/unnamed/part_000`: forwards the outcome of the
real `ApplyCmd.Run`. -/
def update (applyRunResult : Except String Unit) : Except String Unit :=
  match applyRunResult with
  | .error e => .error e
  | .ok _ => .ok ()

/-- Method `updateApplyCmd` of `src/unnamed/part_000`: same shape as the
`start.go` version. -/
def updateApplyCmd (getClusterResult listResult : Except String Unit) :
    Except String Unit :=
  match getClusterResult with
  | .error e => .error ("error initializing cluster " ++ e)
  | .ok _ =>
      match listResult with
      | .error e => .error e
      | .ok _ => .ok ()

end OpenstackASG

namespace AutoscalerGo

/-- Method `dryRun` of `src/autoscaler.go` (lines 96–114): after a
successful `ApplyCmd.Run`, when the target has changes it iterates over
the keys of `ApplyCmd.TaskMap` — the full task map of the model, not the
plan's changes — and returns `true` at the first key with the string
`"Instance/"` at its start; otherwise `needsCreate = false`.  Go map
iteration order is unspecified, but the boolean result only depends on
whether some key matches, so the keys are modelled as a list. -/
def dryRun (runResult : Except String Unit) (target : DryRunTarget)
    (taskMap : List String) : Except String Bool :=
  match runResult with
  | .error e => .error e
  | .ok _ =>
      if target.hasChanges then
        if taskMap.any (fun k => strStartsWith k "Instance/") then
          .ok true
        else
          .ok false
      else
        .ok false

end AutoscalerGo

example :
    openstackASG.dryRun (Except.ok ())
      { changes := [{ taskType := "*openstacktasks.Instance" }] }
      = Except.ok false := rfl

example :
    OpenstackASG.dryRun (Except.ok ())
      { changes := [{ taskType := "*openstacktasks.Instance" }] }
      = Except.ok true := rfl

example :
    AutoscalerGo.dryRun (Except.ok ())
      { changes := [{ taskType := "*openstacktasks.SecurityGroup" }] }
      ["Instance/nodes-1"]
      = Except.ok true := rfl

/-- Startup options of `src/pkg/cmd/start.go` (`autoscaler.Options`),
filled by cobra flags; the `--sleep` flag's default is 45. -/
structure Options where
  Sleep : Int
  StateStore : String
  AccessKey : String
  SecretKey : String
  CustomEndpoint : String
  ClusterName : String
  deriving DecidableEq, Repr

/-- The process environment variables `validate` reads and writes.  Go's
`os.Getenv` yields `""` for an unset variable, so the empty string doubles
as "unset"; `os.Setenv` only fails on OS-level errors and is modelled as
always succeeding. -/
structure Env where
  kopsStateStore : String
  s3AccessKeyId : String
  s3SecretAccessKey : String
  kopsFeatureFlags : String
  deriving DecidableEq, Repr

/-- The trailing step of `validate`: export default
`KOPS_FEATURE_FLAGS` when the variable is unset. -/
def setFeatureFlags (env : Env) : Env :=
  if env.kopsFeatureFlags = "" then
    { env with kopsFeatureFlags := "AlphaAllowOpenstack,+EnableExternalCloudController" }
  else env

/-- Function `validate` of `src/pkg/cmd/start.go` (lines 53–101): rejects
an empty cluster name, then an empty state store; exports
`KOPS_STATE_STORE` when unset; when the state store starts with `"s3://"`
or `"do://"` it additionally rejects an empty access key and an empty
secret key, exporting each when the variable is unset; finally exports the
default `KOPS_FEATURE_FLAGS`.  The `--sleep` interval is never
inspected. -/
def validate (options : Options) (env : Env) : Except String Env :=
  if options.ClusterName = "" then
    .error "Please set NAME to env variable or as start flag"
  else if options.StateStore = "" then
    .error "Please set KOPS_STATE_STORE to env variable or as start flag"
  else
    let env1 :=
      if env.kopsStateStore = "" ∧ options.StateStore ≠ "" then
        { env with kopsStateStore := options.StateStore }
      else env
    if strStartsWith options.StateStore "s3://" ||
        strStartsWith options.StateStore "do://" then
      if options.AccessKey = "" then
        .error "Please set S3_ACCESS_KEY_ID to env variable or as start flag"
      else
        let env2 :=
          if env1.s3AccessKeyId = "" ∧ options.AccessKey ≠ "" then
            { env1 with s3AccessKeyId := options.AccessKey }
          else env1
        if options.SecretKey = "" then
          .error "Please set S3_SECRET_ACCESS_KEY to env variable or as start flag"
        else
          let env3 :=
            if env2.s3SecretAccessKey = "" ∧ options.SecretKey ≠ "" then
              { env2 with s3SecretAccessKey := options.SecretKey }
            else env2
          .ok (setFeatureFlags env3)
    else
      .ok (setFeatureFlags env1)

/-- Outcome of the startup path: `exited = some c` when the process called
`os.Exit c` (or would return), `none` when it reached the infinite
reconciliation loop of `autoscaler.Run`, which never returns. -/
structure ExecTrace where
  exited : Option Nat
  enteredLoop : Bool
  validateError : Option String
  deriving DecidableEq, Repr

/-- The cobra `Run` closure of `Execute` in `src/pkg/cmd/start.go`
(lines 24–38): a `validate` error is printed and the process exits with
code 1 before `autoscaler.Run` is called; otherwise `autoscaler.Run`
parses the VFS registry path (`vfsPathResult`; an error there is returned
and also exits with code 1) and then enters the `for` loop, which has no
exit. -/
def executeRun (options : Options) (env : Env)
    (vfsPathResult : Except String Unit) : ExecTrace :=
  match validate options env with
  | .error e => { exited := some 1, enteredLoop := false, validateError := some e }
  | .ok _ =>
      match vfsPathResult with
      | .error _ => { exited := some 1, enteredLoop := false, validateError := none }
      | .ok _ => { exited := none, enteredLoop := true, validateError := none }

/-- External outcomes feeding one iteration of the reconciliation loop:
the two clientset calls of `updateApplyCmd`, the dry-run `ApplyCmd.Run`,
the resulting target, and the real apply's `ApplyCmd.Run`. -/
structure IterInput where
  getClusterResult : Except String Unit
  listResult : Except String Unit
  planRunResult : Except String Unit
  target : DryRunTarget
  applyRunResult : Except String Unit
  deriving Repr

/-- Observable behaviour of one loop iteration: which phases ran, what
was logged, and whether control flowed on to the next tick. -/
structure IterTrace where
  dryRunCalled : Bool
  updateCalled : Bool
  loggedErrors : List String
  continued : Bool
  deriving DecidableEq, Repr

/-- Body of the `for` loop of `autoscaler.Run` in `src/pkg/cmd/start.go`
(lines 147–171): refresh the apply command (`glog.Errorf` + `continue` on
error), dry-run (`glog.Errorf` + `continue` on error), and when the
dry-run asks for it, update (`glog.Errorf` on error, then fall through to
the next iteration).  Every branch ends at the next tick. -/
def autoscalerRunIteration (inp : IterInput) : IterTrace :=
  match openstackASG.updateApplyCmd inp.getClusterResult inp.listResult with
  | .error e =>
      { dryRunCalled := false, updateCalled := false,
        loggedErrors := ["Error updating applycmd " ++ e], continued := true }
  | .ok _ =>
      match openstackASG.dryRun inp.planRunResult inp.target with
      | .error e =>
          { dryRunCalled := true, updateCalled := false,
            loggedErrors := ["Error running dryrun " ++ e], continued := true }
      | .ok needsUpdate =>
          if needsUpdate then
            match openstackASG.update inp.applyRunResult with
            | .error e =>
                { dryRunCalled := true, updateCalled := true,
                  loggedErrors := ["Error updating cluster " ++ e], continued := true }
            | .ok _ =>
                { dryRunCalled := true, updateCalled := true,
                  loggedErrors := [], continued := true }
          else
            { dryRunCalled := true, updateCalled := false,
              loggedErrors := [], continued := true }

/-- The `for` loop of `autoscaler.Run` over a schedule of ticks: one body
execution per tick; since no branch of the body escapes the loop, every
tick is processed. -/
def autoscalerRunLoop (inputs : List IterInput) : List IterTrace :=
  inputs.map autoscalerRunIteration

namespace OpenstackASG

/-- Body of `loopUntil` of `src/unnamed/part_000` (lines 92–115): same
shape as the `start.go` loop, with errors written to stderr via
`fmt.Fprintf` and `continue` on every error branch. -/
def loopIteration (inp : IterInput) : IterTrace :=
  match OpenstackASG.updateApplyCmd inp.getClusterResult inp.listResult with
  | .error e =>
      { dryRunCalled := false, updateCalled := false,
        loggedErrors := [e], continued := true }
  | .ok _ =>
      match OpenstackASG.dryRun inp.planRunResult inp.target with
      | .error e =>
          { dryRunCalled := true, updateCalled := false,
            loggedErrors := [e], continued := true }
      | .ok update =>
          if update then
            match OpenstackASG.update inp.applyRunResult with
            | .error e =>
                { dryRunCalled := true, updateCalled := true,
                  loggedErrors := [e], continued := true }
            | .ok _ =>
                { dryRunCalled := true, updateCalled := true,
                  loggedErrors := [], continued := true }
          else
            { dryRunCalled := true, updateCalled := false,
              loggedErrors := [], continued := true }

/-- The `for` loop of `loopUntil` over a schedule of ticks. -/
def loopRun (inputs : List IterInput) : List IterTrace :=
  inputs.map loopIteration

end OpenstackASG

/-- Modelled from the spec: the Convergence Gate of spec §4.3 and its
busy flag are absent from `src` (`update()` in `src/pkg/cmd/start.go`
manipulates no flag); faithful to the spec's words, the gate marks the
busy flag, asks the Planner for the real apply, and clears the flag on
both the success and the failure exit path. -/
structure GateState where
  busy : Bool
  deriving DecidableEq, Repr

/-- Modelled from the spec: one Convergence Gate invocation, returning the
apply's outcome together with the gate state left behind. -/
def convergenceGate (applyResult : Except String Unit) (s : GateState) :
    Except String Unit × GateState :=
  let running : GateState := { s with busy := true }
  match applyResult with
  | .ok _ => (Except.ok (), { running with busy := false })
  | .error e => (Except.error e, { running with busy := false })

lemma autoscalerRunIteration_continued (inp : IterInput) :
    (autoscalerRunIteration inp).continued = true := by
  unfold autoscalerRunIteration
  cases h1 : openstackASG.updateApplyCmd inp.getClusterResult inp.listResult with
  | error e => rfl
  | ok u =>
      cases h2 : openstackASG.dryRun inp.planRunResult inp.target with
      | error e => rfl
      | ok b =>
          cases b with
          | false => rfl
          | true =>
              cases h3 : openstackASG.update inp.applyRunResult with
              | error e => rfl
              | ok v => rfl

lemma loopIteration_continued (inp : IterInput) :
    (OpenstackASG.loopIteration inp).continued = true := by
  unfold OpenstackASG.loopIteration
  cases h1 : OpenstackASG.updateApplyCmd inp.getClusterResult inp.listResult with
  | error e => rfl
  | ok u =>
      cases h2 : OpenstackASG.dryRun inp.planRunResult inp.target with
      | error e => rfl
      | ok b =>
          cases b with
          | false => rfl
          | true =>
              cases h3 : OpenstackASG.update inp.applyRunResult with
              | error e => rfl
              | ok v => rfl

/-- C1: the claim asks that every plan with at least one compute-instance
change make `dryRun` return `true`.  In the current revision
(`src/pkg/cmd/start.go`) the instance scan is commented out — the source
itself says `This does not work yet` — so `dryRun` answers `false` even
for a plan whose single change is a compute instance, while the earlier
revision `src/unnamed/part_000` answers `true` on the same plan, matching
the claim's intent. -/
theorem dryRun_instance_change_code_bug :
    openstackASG.dryRun (Except.ok ())
        { changes := [{ taskType := "*openstacktasks.Instance" }] } =
      Except.ok false ∧
    OpenstackASG.dryRun (Except.ok ())
        { changes := [{ taskType := "*openstacktasks.Instance" }] } =
      Except.ok true :=
  ⟨rfl, rfl⟩

/-- C2: after every Convergence Gate invocation the busy flag is clear,
both when the underlying apply succeeds and when it returns an error.
The gate is modelled from spec §4.3 (`convergenceGate`), since `update()`
in `src` manages no busy flag. -/
theorem convergenceGate_clears_busy :
    ∀ (applyResult : Except String Unit) (s : GateState),
      ((convergenceGate applyResult s).2).busy = false := by
  intro r s
  cases r with
  | ok v => rfl
  | error e => rfl

/-- C3: every per-iteration error (state refresh, dry-run plan, real
apply) is caught inside the loop body: in both the `start.go` `Run` loop
and the `part_000` `loopUntil` loop, every scheduled tick produces exactly
one iteration trace and every trace flows on to the next tick, whatever
the external outcomes were. -/
theorem loop_isolates_iteration_errors :
    ∀ (inputs : List IterInput),
      (autoscalerRunLoop inputs).length = inputs.length ∧
      (autoscalerRunLoop inputs).all (fun t => t.continued) = true ∧
      (OpenstackASG.loopRun inputs).length = inputs.length ∧
      (OpenstackASG.loopRun inputs).all (fun t => t.continued) = true := by
  intro inputs
  refine ⟨by simp [autoscalerRunLoop], ?_, by simp [OpenstackASG.loopRun], ?_⟩
  · induction inputs with
    | nil => rfl
    | cons a l ih =>
        simp only [autoscalerRunLoop, List.map_cons, List.all_cons,
          autoscalerRunIteration_continued, Bool.true_and] at ih ⊢
        exact ih
  · induction inputs with
    | nil => rfl
    | cons a l ih =>
        simp only [OpenstackASG.loopRun, List.map_cons, List.all_cons,
          loopIteration_continued, Bool.true_and] at ih ⊢
        exact ih

/-- C4: a prospective plan with zero changes is classified `false` by the
`start.go` and the `part_000` classifier, and the iteration performs no
mutating update in either loop. -/
theorem dryRun_empty_plan_false :
    ∀ (inp : IterInput), inp.planRunResult = Except.ok () →
      inp.target.changes = [] →
      openstackASG.dryRun inp.planRunResult inp.target = Except.ok false ∧
      OpenstackASG.dryRun inp.planRunResult inp.target = Except.ok false ∧
      (autoscalerRunIteration inp).updateCalled = false ∧
      (OpenstackASG.loopIteration inp).updateCalled = false := by
  intro inp hplan hempty
  have h1 : openstackASG.dryRun inp.planRunResult inp.target = Except.ok false := by
    rw [hplan]
    unfold openstackASG.dryRun
    cases h : inp.target.hasChanges <;> simp
  have h2 : OpenstackASG.dryRun inp.planRunResult inp.target = Except.ok false := by
    rw [hplan]
    unfold OpenstackASG.dryRun
    simp [DryRunTarget.hasChanges, hempty]
  refine ⟨h1, h2, ?_, ?_⟩
  · unfold autoscalerRunIteration
    cases hc : openstackASG.updateApplyCmd inp.getClusterResult inp.listResult with
    | error e => rfl
    | ok u => simp [h1]
  · unfold OpenstackASG.loopIteration
    cases hc : OpenstackASG.updateApplyCmd inp.getClusterResult inp.listResult with
    | error e => rfl
    | ok u => simp [h2]

theorem dryRun_empty_plan_false_witness :
    openstackASG.dryRun (Except.ok ()) ⟨[]⟩ = Except.ok false ∧
    OpenstackASG.dryRun (Except.ok ()) ⟨[]⟩ = Except.ok false ∧
    (autoscalerRunIteration
      ⟨Except.ok (), Except.ok (), Except.ok (), ⟨[]⟩, Except.ok ()⟩).updateCalled
        = false ∧
    (OpenstackASG.loopIteration
      ⟨Except.ok (), Except.ok (), Except.ok (), ⟨[]⟩, Except.ok ()⟩).updateCalled
        = false :=
  dryRun_empty_plan_false
    ⟨Except.ok (), Except.ok (), Except.ok (), ⟨[]⟩, Except.ok ()⟩ rfl rfl

/-- C5 counterexample: a plan whose only change is a security group — no
compute-instance change — is classified `true` by the `src/autoscaler.go`
classifier as soon as the task map holds an instance task, because that
classifier scans the full task map instead of the plan's changes. -/
theorem dryRun_taskmap_counterexample :
    AutoscalerGo.dryRun (Except.ok ())
      { changes := [{ taskType := "*openstacktasks.SecurityGroup" }] }
      ["Instance/nodes-1", "SecurityGroup/sg"] = Except.ok true :=
  rfl

/-- C5 amended: a plan with only non-instance changes is classified
`false` by the `part_000` classifier unconditionally; the
`src/autoscaler.go` classifier yields `false` only under the extra
hypothesis that no task-map key starts with `"Instance/"`. -/
theorem dryRun_noninstance_changes_false :
    ∀ (target : DryRunTarget) (taskMap : List String),
      target.changes.all
        (fun c => !(strStartsWith (getTaskName c.taskType) "Instance")) = true →
      OpenstackASG.dryRun (Except.ok ()) target = Except.ok false ∧
      (taskMap.all (fun k => !(strStartsWith k "Instance/")) = true →
        AutoscalerGo.dryRun (Except.ok ()) target taskMap = Except.ok false) := by
  intro target taskMap hall
  constructor
  · unfold OpenstackASG.dryRun
    have hany : target.changes.any
        (fun r => strStartsWith (getTaskName r.taskType) "Instance") = false := by
      rw [List.any_eq_false]
      intro c hc
      have := List.all_eq_true.mp hall c hc
      simpa using this
    cases h : target.hasChanges <;> simp [hany]
  · intro hmap
    unfold AutoscalerGo.dryRun
    have hany : taskMap.any (fun k => strStartsWith k "Instance/") = false := by
      rw [List.any_eq_false]
      intro k hk
      have := List.all_eq_true.mp hmap k hk
      simpa using this
    cases h : target.hasChanges <;> simp [hany]

theorem dryRun_noninstance_changes_false_witness :
    OpenstackASG.dryRun (Except.ok ())
      ⟨[⟨"*openstacktasks.SecurityGroup"⟩]⟩ = Except.ok false ∧
    AutoscalerGo.dryRun (Except.ok ())
      ⟨[⟨"*openstacktasks.SecurityGroup"⟩]⟩ ["SecurityGroup/sg"] = Except.ok false :=
  ⟨(dryRun_noninstance_changes_false ⟨[⟨"*openstacktasks.SecurityGroup"⟩]⟩
      ["SecurityGroup/sg"] (by decide)).1,
   (dryRun_noninstance_changes_false ⟨[⟨"*openstacktasks.SecurityGroup"⟩]⟩
      ["SecurityGroup/sg"] (by decide)).2 (by decide)⟩

/-- C6: in both loops, the mutating update runs in an iteration exactly
when that iteration's state refresh succeeded and its dry-run
classification returned `true`; so an iteration whose dry-run reports no
instance-affecting change skips convergence. -/
theorem update_gated_by_dryRun :
    ∀ (inp : IterInput),
      ((autoscalerRunIteration inp).updateCalled = true ↔
        (openstackASG.updateApplyCmd inp.getClusterResult inp.listResult
            = Except.ok () ∧
         openstackASG.dryRun inp.planRunResult inp.target = Except.ok true)) ∧
      ((OpenstackASG.loopIteration inp).updateCalled = true ↔
        (OpenstackASG.updateApplyCmd inp.getClusterResult inp.listResult
            = Except.ok () ∧
         OpenstackASG.dryRun inp.planRunResult inp.target = Except.ok true)) := by
  intro inp
  constructor
  · unfold autoscalerRunIteration
    cases h1 : openstackASG.updateApplyCmd inp.getClusterResult inp.listResult with
    | error e => simp
    | ok u =>
        cases u
        cases h2 : openstackASG.dryRun inp.planRunResult inp.target with
        | error e => simp
        | ok b =>
            cases b with
            | false => simp
            | true =>
                cases h3 : openstackASG.update inp.applyRunResult with
                | error e => simp
                | ok v => simp
  · unfold OpenstackASG.loopIteration
    cases h1 : OpenstackASG.updateApplyCmd inp.getClusterResult inp.listResult with
    | error e => simp
    | ok u =>
        cases u
        cases h2 : OpenstackASG.dryRun inp.planRunResult inp.target with
        | error e => simp
        | ok b =>
            cases b with
            | false => simp
            | true =>
                cases h3 : OpenstackASG.update inp.applyRunResult with
                | error e => simp
                | ok v => simp

/-- C7 counterexample: with the interval set to 0 and the other inputs
well formed, `validate` succeeds (it never inspects the interval) and the
startup path reaches the reconciliation loop, so a non-positive interval
is not rejected at startup. -/
theorem validate_accepts_nonpositive_interval :
    validate ⟨0, "swift://kops", "", "", "", "kops.example.com"⟩ ⟨"", "", "", ""⟩
        = Except.ok
            ⟨"swift://kops", "", "",
              "AlphaAllowOpenstack,+EnableExternalCloudController"⟩ ∧
    (executeRun ⟨0, "swift://kops", "", "", "", "kops.example.com"⟩
        ⟨"", "", "", ""⟩ (Except.ok ())).enteredLoop = true :=
  ⟨rfl, rfl⟩

/-- C7 amended: startup validation never inspects the polling interval —
`validate` and the whole startup path behave identically for every
`Sleep` value, including non-positive ones; the flag merely defaults
to 45. -/
theorem validate_ignores_interval :
    ∀ (opts : Options) (env : Env) (s : Int) (r : Except String Unit),
      validate { opts with Sleep := s } env = validate opts env ∧
      executeRun { opts with Sleep := s } env r = executeRun opts env r := by
  intro opts env s r
  cases opts
  exact ⟨rfl, rfl⟩

/-- C8: when the state refresh (`updateApplyCmd`) fails, the iteration is
abandoned: neither the dry-run nor the update runs, and control flows on
to the next tick. -/
theorem state_fetch_error_abandons_iteration :
    ∀ (inp : IterInput) (e : String),
      openstackASG.updateApplyCmd inp.getClusterResult inp.listResult
          = Except.error e →
      (autoscalerRunIteration inp).dryRunCalled = false ∧
      (autoscalerRunIteration inp).updateCalled = false ∧
      (autoscalerRunIteration inp).continued = true := by
  intro inp e h
  unfold autoscalerRunIteration
  rw [h]
  exact ⟨rfl, rfl, rfl⟩

theorem state_fetch_error_abandons_iteration_witness :
    (autoscalerRunIteration
      ⟨Except.error "cluster not found", Except.ok (), Except.ok (), ⟨[]⟩,
        Except.ok ()⟩).dryRunCalled = false ∧
    (autoscalerRunIteration
      ⟨Except.error "cluster not found", Except.ok (), Except.ok (), ⟨[]⟩,
        Except.ok ()⟩).updateCalled = false ∧
    (autoscalerRunIteration
      ⟨Except.error "cluster not found", Except.ok (), Except.ok (), ⟨[]⟩,
        Except.ok ()⟩).continued = true :=
  state_fetch_error_abandons_iteration
    ⟨Except.error "cluster not found", Except.ok (), Except.ok (), ⟨[]⟩,
      Except.ok ()⟩
    "error initializing cluster cluster not found" rfl

/-- C9: an empty cluster name, or an empty state store, makes `validate`
fail with the message naming the missing setting (`NAME`, resp.
`KOPS_STATE_STORE`), and the startup path exits with code 1 without
reaching the reconciliation loop. -/
theorem missing_required_config_fatal :
    ∀ (opts : Options) (env : Env) (r : Except String Unit),
      (opts.ClusterName = "" →
        validate opts env
            = Except.error "Please set NAME to env variable or as start flag" ∧
        executeRun opts env r
            = ⟨some 1, false,
                some "Please set NAME to env variable or as start flag"⟩) ∧
      (opts.ClusterName ≠ "" → opts.StateStore = "" →
        validate opts env
            = Except.error
                "Please set KOPS_STATE_STORE to env variable or as start flag" ∧
        executeRun opts env r
            = ⟨some 1, false,
                some "Please set KOPS_STATE_STORE to env variable or as start flag"⟩) := by
  intro opts env r
  constructor
  · intro h
    have hv : validate opts env
        = Except.error "Please set NAME to env variable or as start flag" := by
      unfold validate
      rw [if_pos h]
    exact ⟨hv, by unfold executeRun; rw [hv]⟩
  · intro h1 h2
    have hv : validate opts env
        = Except.error "Please set KOPS_STATE_STORE to env variable or as start flag" := by
      unfold validate
      rw [if_neg h1, if_pos h2]
    exact ⟨hv, by unfold executeRun; rw [hv]⟩

theorem missing_required_config_fatal_witness :
    (validate ⟨45, "s3://bucket", "", "", "", ""⟩ ⟨"", "", "", ""⟩
        = Except.error "Please set NAME to env variable or as start flag" ∧
      executeRun ⟨45, "s3://bucket", "", "", "", ""⟩ ⟨"", "", "", ""⟩ (Except.ok ())
        = ⟨some 1, false,
            some "Please set NAME to env variable or as start flag"⟩) ∧
    (validate ⟨45, "", "", "", "", "kops.example.com"⟩ ⟨"", "", "", ""⟩
        = Except.error "Please set KOPS_STATE_STORE to env variable or as start flag" ∧
      executeRun ⟨45, "", "", "", "", "kops.example.com"⟩ ⟨"", "", "", ""⟩
          (Except.ok ())
        = ⟨some 1, false,
            some "Please set KOPS_STATE_STORE to env variable or as start flag"⟩) :=
  ⟨(missing_required_config_fatal ⟨45, "s3://bucket", "", "", "", ""⟩
      ⟨"", "", "", ""⟩ (Except.ok ())).1 rfl,
   (missing_required_config_fatal ⟨45, "", "", "", "", "kops.example.com"⟩
      ⟨"", "", "", ""⟩ (Except.ok ())).2 (by decide) rfl⟩

/-- Whether an `Except`-valued validation succeeded. -/
def exceptIsOk : Except String Env → Bool
  | .ok _ => true
  | .error _ => false

/-- C10: with the cluster name and the state store set, `validate`
succeeds exactly when the state store does not start with `"s3://"` or
`"do://"`, or both the access key and the secret key are non-empty; in
particular every other scheme passes with no credential material set. -/
theorem validate_s3_credentials_iff :
    ∀ (opts : Options) (env : Env),
      opts.ClusterName ≠ "" → opts.StateStore ≠ "" →
      exceptIsOk (validate opts env) =
        (!(strStartsWith opts.StateStore "s3://" ||
            strStartsWith opts.StateStore "do://") ||
          (!(opts.AccessKey == "") && !(opts.SecretKey == ""))) := by
  intro opts env h1 h2
  unfold validate
  rw [if_neg h1, if_neg h2]
  cases hS : (strStartsWith opts.StateStore "s3://" ||
      strStartsWith opts.StateStore "do://") with
  | false => simp [hS, exceptIsOk]
  | true =>
      by_cases hA : opts.AccessKey = ""
      · simp [hS, hA, exceptIsOk]
      · by_cases hK : opts.SecretKey = ""
        · simp [hS, hA, hK, exceptIsOk]
        · simp [hS, hA, hK, exceptIsOk]

theorem validate_s3_credentials_iff_witness :
    (exceptIsOk (validate ⟨45, "s3://bucket", "", "", "", "kops.example.com"⟩
        ⟨"", "", "", ""⟩) =
      (!(strStartsWith "s3://bucket" "s3://" ||
          strStartsWith "s3://bucket" "do://") ||
        (!(("" : String) == "") && !(("" : String) == "")))) ∧
    (exceptIsOk (validate ⟨45, "swift://kops", "", "", "", "kops.example.com"⟩
        ⟨"", "", "", ""⟩) =
      (!(strStartsWith "swift://kops" "s3://" ||
          strStartsWith "swift://kops" "do://") ||
        (!(("" : String) == "") && !(("" : String) == "")))) :=
  ⟨validate_s3_credentials_iff ⟨45, "s3://bucket", "", "", "", "kops.example.com"⟩
      ⟨"", "", "", ""⟩ (by decide) (by decide),
   validate_s3_credentials_iff ⟨45, "swift://kops", "", "", "", "kops.example.com"⟩
      ⟨"", "", "", ""⟩ (by decide) (by decide)⟩
